import Mathlib

/-!
Shallow embedding of `src/enumclassbitset.hpp` (C++ namespace `Util`):
the class `EnumClassBitset<T>`, a typed wrapper around `std::bitset`
keyed by an enum class `T` whose trait descriptor `EnumTraits<T>`
declares the last member `max`.

Modelling conventions:

* An enumeration member is represented by its ordinal, a `Nat`; the
  trait constant `EnumTraits<T>::max` is the parameter `maxOrd`, so the
  members of `T` are the ordinals `0 .. maxOrd` and the domain size is
  `maxOrd + 1`.
* `ImplType` (header line 103) is
  `std::bitset<static_cast<std::size_t>(EnumTraits<T>::max)>`: a bit
  vector of width exactly `maxOrd` (the source applies no `+ 1`).
* The position-taking members of `std::bitset` — `test(pos)`,
  `set(pos, value)`, `reset(pos)`, `flip(pos)` — throw
  `std::out_of_range` when `pos` is not a valid bit position
  (C++ standard, [bitset.members]); they are embedded with `Except`.
  `operator[]` is the unchecked access.
* `const` member functions cannot mutate `*this` or their `const &`
  arguments; where a claim is about mutation versus copying, the method
  is given in state-passing form: the function returns the final state
  of every object involved together with the value the returned
  reference denotes.
* The iterator stores `EnumClassBitset const & bitset` and compares it
  by `std::addressof` (line 194), so object identity is modelled by an
  explicit address (`Instance.addr`).
-/

set_option autoImplicit false

namespace Util

/-- Error signalled by the checked accessors of `std::bitset`
(`std::out_of_range`). -/
inductive BitsetError where
  | outOfRange
deriving DecidableEq

/-- Fixed-width bit vector: shallow embedding of `std::bitset<n>`.
Bit `i` of the vector is `bits i`. -/
structure StdBitset (n : Nat) where
  bits : Fin n → Bool

namespace StdBitset

variable {n : Nat}

/-- A value-initialised `std::bitset<n>`: every bit is zero. -/
def init (n : Nat) : StdBitset n := ⟨fun _ => false⟩

/-- Read bit `i`. Out-of-range positions read as `false`; this helper is
only ever applied under an `i < n` guard, mirroring the in-range
accesses the source performs. -/
def read (b : StdBitset n) (i : Nat) : Bool :=
  if h : i < n then b.bits ⟨i, h⟩ else false

/-- `std::bitset::test(pos)`: the bit value, or `std::out_of_range` when
`pos` is not a valid bit position. -/
def test (b : StdBitset n) (i : Nat) : Except BitsetError Bool :=
  if i < n then .ok (b.read i) else .error .outOfRange

/-- `std::bitset::set(pos, value)`: sets bit `pos` to `value`, or throws
`std::out_of_range` when `pos` is not a valid bit position (in which
case the bitset is left unmodified and nothing is returned). -/
def set (b : StdBitset n) (i : Nat) (v : Bool) : Except BitsetError (StdBitset n) :=
  if i < n then .ok ⟨fun j => if j.val = i then v else b.bits j⟩
  else .error .outOfRange

/-- `std::bitset::reset(pos)`: equivalent to `set(pos, false)`, with the
same `std::out_of_range` behaviour. -/
def reset (b : StdBitset n) (i : Nat) : Except BitsetError (StdBitset n) :=
  b.set i false

/-- `std::bitset::flip(pos)`: toggles bit `pos`, or throws
`std::out_of_range` when `pos` is not a valid bit position. -/
def flipPos (b : StdBitset n) (i : Nat) : Except BitsetError (StdBitset n) :=
  if i < n then .ok ⟨fun j => if j.val = i then !(b.bits j) else b.bits j⟩
  else .error .outOfRange

/-- `std::bitset::flip()`: toggles every bit; never fails. -/
def flipAll (b : StdBitset n) : StdBitset n := ⟨fun j => !(b.bits j)⟩

/-- `std::bitset::all()`: `count() == size()`; vacuously true when
`n = 0`. -/
def all (b : StdBitset n) : Bool := (List.range n).all fun i => b.read i

/-- `std::bitset::any()`: at least one bit is set. -/
def any (b : StdBitset n) : Bool := (List.range n).any fun i => b.read i

/-- `std::bitset::none()`: no bit is set. -/
def noneSet (b : StdBitset n) : Bool := !(b.any)

/-- `std::bitset::count()`: the number of set bits. -/
def count (b : StdBitset n) : Nat := (List.range n).countP fun i => b.read i

/-- `std::bitset::size()`: the width `n` of the bit vector. -/
def size (_b : StdBitset n) : Nat := n

/-- Bitwise and, as performed by `std::bitset::operator&=`. -/
def land (a b : StdBitset n) : StdBitset n := ⟨fun i => a.bits i && b.bits i⟩

/-- Bitwise or, as performed by `std::bitset::operator|=`. -/
def lor (a b : StdBitset n) : StdBitset n := ⟨fun i => a.bits i || b.bits i⟩

/-- Bitwise exclusive or, as performed by `std::bitset::operator^=`. -/
def lxor (a b : StdBitset n) : StdBitset n := ⟨fun i => a.bits i != b.bits i⟩

end StdBitset

/-- `Util::EnumClassBitset<T>` (line 98): wraps the single data member
`ImplType mBitset` where
`ImplType = std::bitset<static_cast<std::size_t>(EnumTraits<T>::max)>`
(line 103) — the storage width is the ordinal of `max` with no `+ 1`.
The private helper `enumIndex` (line 113) casts a member to its
ordinal, which in this embedding is the identity on `Nat`. -/
structure EnumClassBitset (maxOrd : Nat) where
  mBitset : StdBitset maxOrd

namespace EnumClassBitset

variable {maxOrd : Nat}

/-- Default constructor (line 214): the member `mBitset` is
default-constructed, so every bit is clear. -/
def mkEmpty (maxOrd : Nat) : EnumClassBitset maxOrd := ⟨StdBitset.init maxOrd⟩

/-- `test(member)` (line 274): `mBitset.test(enumIndex(member))`. -/
def test (s : EnumClassBitset maxOrd) (member : Nat) : Except BitsetError Bool :=
  s.mBitset.test member

/-- `set(member, value)` (line 359):
`mBitset.set(enumIndex(member), value); return *this;`. The result is
the final state of `*this`, which is also what the returned reference
denotes; an `std::out_of_range` thrown by `std::bitset::set`
propagates. -/
def set (s : EnumClassBitset maxOrd) (member : Nat) (value : Bool) :
    Except BitsetError (EnumClassBitset maxOrd) :=
  Except.map (fun b => EnumClassBitset.mk b) (s.mBitset.set member value)

/-- `reset(member)` (line 326): `mBitset.reset(enumIndex(member));
return *this;`. -/
def reset (s : EnumClassBitset maxOrd) (member : Nat) :
    Except BitsetError (EnumClassBitset maxOrd) :=
  Except.map (fun b => EnumClassBitset.mk b) (s.mBitset.reset member)

/-- `flip(member)` (line 347): `mBitset.flip(enumIndex(member));
return *this;`. -/
def flipMember (s : EnumClassBitset maxOrd) (member : Nat) :
    Except BitsetError (EnumClassBitset maxOrd) :=
  Except.map (fun b => EnumClassBitset.mk b) (s.mBitset.flipPos member)

/-- `flip()` (line 336): `mBitset.flip(); return *this;`. -/
def flipAllMembers (s : EnumClassBitset maxOrd) : EnumClassBitset maxOrd :=
  ⟨s.mBitset.flipAll⟩

/-- `all()` (line 282). -/
def all (s : EnumClassBitset maxOrd) : Bool := s.mBitset.all

/-- `any()` (line 290). -/
def any (s : EnumClassBitset maxOrd) : Bool := s.mBitset.any

/-- `none()` (line 298). -/
def noneMember (s : EnumClassBitset maxOrd) : Bool := s.mBitset.noneSet

/-- `count()` (line 306). -/
def count (s : EnumClassBitset maxOrd) : Nat := s.mBitset.count

/-- `size()` (line 316): `mBitset.size()`, i.e. the storage width
`maxOrd`. -/
def size (s : EnumClassBitset maxOrd) : Nat := s.mBitset.size

/-- `operator&=` (line 370) in state-passing form. First component: the
final state of `*this`; second component: the set the returned
reference denotes (`*this`). The parameter `other` is `const &` and is
not modified. -/
def andAssign (self other : EnumClassBitset maxOrd) :
    EnumClassBitset maxOrd × EnumClassBitset maxOrd :=
  let self' : EnumClassBitset maxOrd := ⟨self.mBitset.land other.mBitset⟩
  (self', self')

/-- `operator|=` (line 381) in state-passing form, as `andAssign`. -/
def orAssign (self other : EnumClassBitset maxOrd) :
    EnumClassBitset maxOrd × EnumClassBitset maxOrd :=
  let self' : EnumClassBitset maxOrd := ⟨self.mBitset.lor other.mBitset⟩
  (self', self')

/-- `operator^=` (line 392) in state-passing form, as `andAssign`. -/
def xorAssign (self other : EnumClassBitset maxOrd) :
    EnumClassBitset maxOrd × EnumClassBitset maxOrd :=
  let self' : EnumClassBitset maxOrd := ⟨self.mBitset.lxor other.mBitset⟩
  (self', self')

/-- `operator&` (line 403): a `const` member taking `const & other`, so
neither operand can change; the body copies `*this` into `newBitset`,
applies `&=` to the copy, and returns the copy by value. Components:
final state of `*this`, final state of `other`, returned value. -/
def andOp (self other : EnumClassBitset maxOrd) :
    EnumClassBitset maxOrd × EnumClassBitset maxOrd × EnumClassBitset maxOrd :=
  let newBitset : EnumClassBitset maxOrd := self
  let newBitset' : EnumClassBitset maxOrd := ⟨newBitset.mBitset.land other.mBitset⟩
  (self, other, newBitset')

/-- `operator|` (line 415), in the same form as `andOp`. -/
def orOp (self other : EnumClassBitset maxOrd) :
    EnumClassBitset maxOrd × EnumClassBitset maxOrd × EnumClassBitset maxOrd :=
  let newBitset : EnumClassBitset maxOrd := self
  let newBitset' : EnumClassBitset maxOrd := ⟨newBitset.mBitset.lor other.mBitset⟩
  (self, other, newBitset')

/-- `operator^` (line 427), in the same form as `andOp`. -/
def xorOp (self other : EnumClassBitset maxOrd) :
    EnumClassBitset maxOrd × EnumClassBitset maxOrd × EnumClassBitset maxOrd :=
  let newBitset : EnumClassBitset maxOrd := self
  let newBitset' : EnumClassBitset maxOrd := ⟨newBitset.mBitset.lxor other.mBitset⟩
  (self, other, newBitset')

/-- `operator~` (line 440): copies `*this` into `newBitset`, applies
`flip()` to the copy, and returns it by value; `*this` is `const`.
Components: final state of `*this`, returned value. -/
def notOp (self : EnumClassBitset maxOrd) :
    EnumClassBitset maxOrd × EnumClassBitset maxOrd :=
  let newBitset : EnumClassBitset maxOrd := self
  let newBitset' : EnumClassBitset maxOrd := newBitset.flipAllMembers
  (self, newBitset')

/-- `to_raw_bitset` (line 472): returns the data member `mBitset` by
value. -/
def to_raw_bitset (s : EnumClassBitset maxOrd) : StdBitset maxOrd := s.mBitset

/-- `to_raw_bitset` in state-passing form: the method is `const`, so the
final state of `*this` accompanies the returned copy. -/
def to_raw_bitsetFull (s : EnumClassBitset maxOrd) :
    EnumClassBitset maxOrd × StdBitset maxOrd := (s, s.mBitset)

/-- The scenario of test-suite lines 58-61: export the raw bitset, then
set a bit on the exported copy. First component: the outcome of the
mutation of the copy; second component: the final state of the
original set after both statements. -/
def exportThenMutate (s : EnumClassBitset maxOrd) (j : Nat) (v : Bool) :
    Except BitsetError (StdBitset maxOrd) × EnumClassBitset maxOrd :=
  (StdBitset.set (to_raw_bitset s) j v, s)

/-- An `EnumClassBitset` object together with its address. Iterators
store `EnumClassBitset const & bitset` and compare it with
`std::addressof` (line 194), so object identity is part of the model. -/
structure Instance (maxOrd : Nat) where
  addr : Nat
  val : EnumClassBitset maxOrd

/-- `EnumClassBitset::iterator` (line 122): the referenced set (its
address and its contents), the `index` into the set, and the cached
`value` (`index` cast to `T`, line 145). -/
structure iterator (maxOrd : Nat) where
  bitsetAddr : Nat
  bitsetVal : EnumClassBitset maxOrd
  index : Nat
  value : Nat

/-- The private iterator constructor (line 142):
`bitset(argBitset), index(argIndex)` and then
`value = static_cast<T>(index)`. -/
def iterator.mkIt (inst : Instance maxOrd) (argIndex : Nat) : iterator maxOrd :=
  ⟨inst.addr, inst.val, argIndex, argIndex⟩

/-- One unrolling per fuel unit of the loop
`while (index < bitset.size()) { value = T(index); if (bitset.test(value)) break; index++; }`
of `iterator::findNext` (line 155). The loop makes at most
`size - index` iterations, so that much fuel reproduces it exactly.
Inside the loop `index < size`, so the checked `bitset.test(value)`
cannot throw and is the plain bit `read`. -/
def iterator.findNextFuel : Nat → iterator maxOrd → iterator maxOrd
  | 0, it => it
  | fuel + 1, it =>
    if it.index < maxOrd then
      let it' : iterator maxOrd := { it with value := it.index }
      if it'.bitsetVal.mBitset.read it'.index then it'
      else iterator.findNextFuel fuel { it' with index := it'.index + 1 }
    else it

/-- `iterator::findNext` (line 155). -/
def iterator.findNext (it : iterator maxOrd) : iterator maxOrd :=
  iterator.findNextFuel (maxOrd - it.index) it

/-- `iterator::operator++` (line 181): `index++; findNext();`. -/
def iterator.inc (it : iterator maxOrd) : iterator maxOrd :=
  iterator.findNext { it with index := it.index + 1 }

/-- `iterator::operator==` (line 192):
`std::addressof(bitset) == std::addressof(other.bitset) && index == other.index`. -/
def iterator.eqOp (i j : iterator maxOrd) : Bool :=
  (i.bitsetAddr == j.bitsetAddr) && (i.index == j.index)

/-- `begin()` (line 450): `iterator(*this, 0)` advanced by
`findNext()`. -/
def begin (inst : Instance maxOrd) : iterator maxOrd :=
  iterator.findNext (iterator.mkIt inst 0)

/-- `end()` (line 461):
`iterator(*this, static_cast<std::size_t>(EnumTraits<T>::max))`, i.e.
index `maxOrd`, which equals `size()`. -/
def endIter (inst : Instance maxOrd) : iterator maxOrd :=
  iterator.mkIt inst maxOrd

/-- Fuel-metered range-`for` over the set (`for (auto el : s)`): while
the cursor differs from `end()` — both cursors reference the same
object, so `operator!=` reduces to `index != size` — yield `*it` and
advance with `operator++`. Every advance from a yielded position
strictly increases `index` while it stays at most `maxOrd`, so fuel
`maxOrd + 1` reproduces the whole loop for cursors produced by
`begin`. -/
def yieldFuel : Nat → iterator maxOrd → List Nat
  | 0, _ => []
  | fuel + 1, it =>
    if it.index == maxOrd then []
    else it.value :: yieldFuel fuel it.inc

/-- The element sequence a range-`for` over the set visits, starting
from `begin`. -/
def iterYield (inst : Instance maxOrd) : List Nat :=
  yieldFuel (maxOrd + 1) (begin inst)

/-- The set whose every storage bit is set. For `TestEnum` of the test
suite (`maxOrd = 4`) it is the state reached by
`set(A).set(B).set(C).set(D)` and it satisfies `all()`. -/
def fullStorage (maxOrd : Nat) : EnumClassBitset maxOrd := ⟨⟨fun _ => true⟩⟩

end EnumClassBitset

/-- Whether a checked operation completed without throwing. -/
def completes {α : Type} : Except BitsetError α → Bool
  | .ok _ => true
  | .error _ => false

/-- Outcome of evaluating a C++ boolean expression combining two checked
sub-expressions, left to right: an exception thrown by either
sub-expression propagates, otherwise the combiner is applied to the two
values. (For the short-circuiting `&&`/`||` the right operand may be
skipped in C++; that is observationally identical here because the
right sub-expression is effect-free and, on the same set type, throws
exactly when the left one does.) -/
def liftBool2 (f : Bool → Bool → Bool) (x y : Except BitsetError Bool) :
    Except BitsetError Bool :=
  match x with
  | .error e => .error e
  | .ok a =>
    match y with
    | .error e => .error e
    | .ok b => .ok (f a b)

/-- Outcome of evaluating a C++ expression `f(x)` over one checked
sub-expression: an exception propagates, otherwise `f` is applied. -/
def liftBool1 (f : Bool → Bool) (x : Except BitsetError Bool) :
    Except BitsetError Bool :=
  match x with
  | .error e => .error e
  | .ok a => .ok (f a)

open EnumClassBitset

/-- Two `EnumClassBitset` values with pointwise equal storage bits are
equal. -/
theorem EnumClassBitset.extBits {n : Nat} {x y : EnumClassBitset n}
    (h : ∀ j, x.mBitset.bits j = y.mBitset.bits j) : x = y := by
  cases x with
  | mk bx =>
    cases y with
    | mk yb =>
      cases bx
      cases yb
      exact congrArg EnumClassBitset.mk (congrArg StdBitset.mk (funext h))

/-- Claim C1 (code bug), evaluated at the failing input: for the test
suite's `TestEnum` (members `A..E`, `ordinal(max) = 4`), `size()` of a
default-constructed `EnumClassBitset<TestEnum>` is `4`, not the
`ordinal(max) + 1 = 5` the claim states: `ImplType` (line 103) is
`std::bitset<static_cast<std::size_t>(max)>`, with no `+ 1`. -/
theorem C1_size_code_bug_eval :
    (mkEmpty 4).size = 4 ∧ (mkEmpty 4).size ≠ 4 + 1 :=
  ⟨rfl, by decide⟩

/-- Claim C2 counterexample at `TestEnum` (`maxOrd = 4`), member `E`
(ordinal 4): `test` signals out-of-range although ordinal 4 exceeds
neither `size()` (= 4) nor the claimed capacity `ordinal(max) + 1`
(= 5); and `test` is not the only bounds-validating operation —
`set`, `reset` and `flip(member)` signal the same out-of-range error
there (`std::bitset` checks every position-taking member). -/
theorem C2_bounds_check_cex :
    (mkEmpty 4).test 4 = .error .outOfRange ∧
    ¬ (4 > (mkEmpty 4).size) ∧
    ¬ (4 > (mkEmpty 4).size + 1) ∧
    EnumClassBitset.set (mkEmpty 4) 4 true = .error .outOfRange ∧
    EnumClassBitset.reset (mkEmpty 4) 4 = .error .outOfRange ∧
    EnumClassBitset.flipMember (mkEmpty 4) 4 = .error .outOfRange :=
  ⟨rfl, by decide, by decide, rfl, rfl, rfl⟩

/-- Claim C2 as amended: `test(m)` returns the stored bit when
`ordinal(m) < size()` and signals out-of-range exactly when
`ordinal(m) ≥ size()` (where `size() = ordinal(max)`, per C1/C10); and
`test` is not the only operation performing bounds validation — `set`,
`reset` and `flip(member)` succeed exactly when `test` does. -/
theorem C2_bounds_check_amended (maxOrd : Nat) (s : EnumClassBitset maxOrd)
    (m : Nat) (v : Bool) :
    (s.test m = if m < s.size then Except.ok (s.mBitset.read m)
                else Except.error BitsetError.outOfRange) ∧
    (completes (EnumClassBitset.set s m v) = completes (s.test m)) ∧
    (completes (EnumClassBitset.reset s m) = completes (s.test m)) ∧
    (completes (EnumClassBitset.flipMember s m) = completes (s.test m)) := by
  by_cases h : m < maxOrd <;>
    simp [EnumClassBitset.test, StdBitset.test, EnumClassBitset.set,
      StdBitset.set, EnumClassBitset.reset, StdBitset.reset,
      EnumClassBitset.flipMember, StdBitset.flipPos,
      EnumClassBitset.size, StdBitset.size, h, completes, Except.map]

/-- Claim C3 (code bug), evaluated at the failing input: for a
single-member enumeration (`ordinal(max) = 0`, domain size `K = 1`) the
default-constructed set has `all() == true` — the storage is
`std::bitset<0>`, on which `all()` is vacuously true — while the claim
says `all() == (K == 0) == false`. The other claimed conjuncts hold
there: `none()`, `any()`, `count()`, and `begin() == end()`. -/
theorem C3_default_all_code_bug_eval :
    (mkEmpty 0).all = true ∧
    (mkEmpty 0).noneMember = true ∧
    (mkEmpty 0).any = false ∧
    (mkEmpty 0).count = 0 ∧
    iterator.eqOp (begin ⟨0, mkEmpty 0⟩) (endIter ⟨0, mkEmpty 0⟩) = true ∧
    decide (0 + 1 = 0) = false := by
  decide

/-- Claim C4 (code bug), evaluated at the failing input: for `TestEnum`
(`maxOrd = 4`) and member `E` (ordinal 4), `set(E)` does not make
`test(E)` true — it signals out-of-range (`std::bitset<4>::set(4)`
throws), as does `test(E)` itself, contrary to the claim and to the
test suite, which sets `TestEnum::E` expecting success. -/
theorem C4_set_max_code_bug_eval :
    EnumClassBitset.set (mkEmpty 4) 4 true = .error .outOfRange ∧
    (mkEmpty 4).test 4 = .error .outOfRange :=
  ⟨rfl, rfl⟩

/-- Claim C5: the set-algebra operators agree pointwise with the boolean
connectives on `test`, stated as outcome equality: at ordinals inside
the storage both sides are the same boolean, and at ordinals outside
the storage both sides signal the same out-of-range error. -/
theorem C5_algebra_test_agreement (maxOrd : Nat)
    (a b : EnumClassBitset maxOrd) (m : Nat) :
    ((andOp a b).2.2.test m = liftBool2 (fun x y => x && y) (a.test m) (b.test m)) ∧
    ((orOp a b).2.2.test m = liftBool2 (fun x y => x || y) (a.test m) (b.test m)) ∧
    ((xorOp a b).2.2.test m = liftBool2 (fun x y => x != y) (a.test m) (b.test m)) ∧
    ((notOp a).2.test m = liftBool1 (fun x => !x) (a.test m)) := by
  by_cases h : m < maxOrd <;>
    simp [EnumClassBitset.test, StdBitset.test, StdBitset.read, h,
      andOp, orOp, xorOp, notOp, StdBitset.land, StdBitset.lor,
      StdBitset.lxor, StdBitset.flipAll, EnumClassBitset.flipAllMembers,
      liftBool2, liftBool1]

/-- Claim C6: the binary operators `&`, `|`, `^` and the complement `~`
leave their operands in their initial states and return a fresh set,
while `&=`, `|=`, `^=` leave the left operand holding the combined
value — the same value the corresponding binary operator returns — and
return that mutated left operand itself. -/
theorem C6_operator_effects (maxOrd : Nat) (a b : EnumClassBitset maxOrd) :
    ((andOp a b).1 = a ∧ (andOp a b).2.1 = b) ∧
    ((orOp a b).1 = a ∧ (orOp a b).2.1 = b) ∧
    ((xorOp a b).1 = a ∧ (xorOp a b).2.1 = b) ∧
    ((notOp a).1 = a) ∧
    ((andAssign a b).1 = (andOp a b).2.2 ∧ (andAssign a b).2 = (andAssign a b).1) ∧
    ((orAssign a b).1 = (orOp a b).2.2 ∧ (orAssign a b).2 = (orAssign a b).1) ∧
    ((xorAssign a b).1 = (xorOp a b).2.2 ∧ (xorAssign a b).2 = (xorAssign a b).1) :=
  ⟨⟨rfl, rfl⟩, ⟨rfl, rfl⟩, ⟨rfl, rfl⟩, rfl, ⟨rfl, rfl⟩, ⟨rfl, rfl⟩, ⟨rfl, rfl⟩⟩

/-- Claim C7 (code bug), evaluated at the failing input: the fullest
reachable `EnumClassBitset<TestEnum>` — obtained by
`set(A).set(B).set(C).set(D)`, with every storage bit set and
`all() == true` — iterates as `[A, B, C, D]`: 4 elements, not the
`K = 5` elements spanning the full domain that the claim (and the test
suite, which expects 5 elements and mask `0x1F`) states; member `E` is
never yielded. -/
theorem C7_full_iteration_code_bug_eval :
    (Except.bind (EnumClassBitset.set (mkEmpty 4) 0 true) fun s1 =>
      Except.bind (EnumClassBitset.set s1 1 true) fun s2 =>
        Except.bind (EnumClassBitset.set s2 2 true) fun s3 =>
          EnumClassBitset.set s3 3 true) = Except.ok (fullStorage 4) ∧
    (fullStorage 4).all = true ∧
    iterYield ⟨0, fullStorage 4⟩ = [0, 1, 2, 3] ∧
    (iterYield ⟨0, fullStorage 4⟩).length ≠ 4 + 1 := by
  refine ⟨congrArg Except.ok (EnumClassBitset.extBits ?_), rfl, rfl, by decide⟩
  intro j
  fin_cases j <;> rfl

/-- Claim C8: iterator equality holds exactly when both cursors
reference the same set object (compared by address, line 194) and carry
the same index; cursors over distinct objects are never equal, whatever
their indices and the sets' contents. -/
theorem C8_iterator_identity_eq (maxOrd : Nat) (i j : iterator maxOrd) :
    (iterator.eqOp i j = true ↔ (i.bitsetAddr = j.bitsetAddr ∧ i.index = j.index)) ∧
    (i.bitsetAddr ≠ j.bitsetAddr → iterator.eqOp i j = false) := by
  constructor
  · simp [iterator.eqOp]
  · intro h
    simp [iterator.eqOp, h]

/-- Claim C8 witness: two `begin` cursors over two distinct set objects
(addresses 1 and 2) holding equal contents and standing at equal
indices are nevertheless unequal. -/
theorem C8_iterator_identity_eq_witness :
    iterator.eqOp (begin (⟨1, mkEmpty 3⟩ : Instance 3)) (begin ⟨2, mkEmpty 3⟩) = false ∧
    (begin (⟨1, mkEmpty 3⟩ : Instance 3)).index = (begin (⟨2, mkEmpty 3⟩ : Instance 3)).index ∧
    (begin (⟨1, mkEmpty 3⟩ : Instance 3)).bitsetVal = (begin (⟨2, mkEmpty 3⟩ : Instance 3)).bitsetVal :=
  ⟨(C8_iterator_identity_eq 3 (begin ⟨1, mkEmpty 3⟩) (begin ⟨2, mkEmpty 3⟩)).2 (by decide),
    rfl, rfl⟩

/-- Claim C9: the raw export agrees bit-for-bit with `test` (as outcome
equality: equal booleans on in-storage ordinals, the same out-of-range
error outside), the export leaves the set unchanged (`const` method
returning `mBitset` by value), and mutating the exported copy leaves
the original set in its initial state. -/
theorem C9_raw_export_snapshot (maxOrd : Nat) (s : EnumClassBitset maxOrd)
    (i j : Nat) (v : Bool) :
    ((to_raw_bitset s).test i = s.test i) ∧
    ((to_raw_bitsetFull s).1 = s) ∧
    ((exportThenMutate s j v).2 = s) :=
  ⟨rfl, rfl, rfl⟩

/-- Claim C10: on every `EnumClassBitset` of an enumeration with
declared maximum ordinal `maxOrd`, `test` applied to the `max` member
itself signals out-of-range, because the storage (line 103) is
`std::bitset<maxOrd>` — `size()` is `maxOrd`, not `maxOrd + 1` — so the
highest-ordinal enumerator lies outside the storage. -/
theorem C10_test_max_out_of_range (maxOrd : Nat) (s : EnumClassBitset maxOrd) :
    s.test maxOrd = .error .outOfRange ∧ s.size = maxOrd := by
  refine ⟨?_, rfl⟩
  simp [EnumClassBitset.test, StdBitset.test]

end Util
